import Mathlib

/-!
Verification of the Better-YouTube-Music plugin runtime against its
natural-language specification.

The definitions below are a shallow embedding of the TypeScript sources:

* the Last.fm scrobbler renderer script (`src/unnamed/part_003`):
  `updateNowPlaying` (lines 98-126) and `checkTrack` (lines 203-254);
* the ListenBrainz scrobbler renderer script
  (`src/src/plugins/integrations/ListenBrainz.ts`, `checkTrack` lines 123-169);
* the companion query server
  (`src/src/plugins/integrations/CompanionServer.ts`: request routing in
  `startServer` lines 50-70, `handleStateRequest` lines 104-138,
  `handleAuthRequest` lines 140-153, `updateState` lines 91-102);
* plugin configuration merging (`LastFM.getConfig`, `CompanionServer.getConfig`,
  `ListenBrainz.getConfig`) and the `onRendererLoaded` hooks of
  `LastFM` and `AudioOutput`;
* the injected-script idempotency guards of `DiscordRPC`, `AudioOutput`
  and `LastFM`.

JavaScript numbers that only ever hold exact media positions and
millisecond clock readings are modelled as `ℚ` (positions and durations)
and `ℕ` (millisecond timestamps).  `Date.now()` readings are nonzero in
reality; where JS truthiness of a timestamp matters this is modelled
explicitly.
-/

namespace BYM

/-- JSON-ish configuration values that occur in the plugin configs. -/
inductive Val
| str (s : String)
| num (n : Nat)
| bool (b : Bool)
deriving DecidableEq

/-- A plugin configuration: a partial map from keys to values
(`undefined` keys are `none`). -/
def Config : Type := String → Option Val

/-- JavaScript truthiness of a possibly-absent config value
(`undefined`, `''`, `0` and `false` are falsy). -/
def isTruthy : Option Val → Bool
| none => false
| some (.str s) => s ≠ ""
| some (.num n) => n ≠ 0
| some (.bool b) => b

/-- Modelled from the spec: `BasePlugin.getConfig` is missing from the
sources (only its subclasses are present).  Per the spec, plugins read a
merged view of author defaults and persisted overrides where the
persisted override wins, and the config always includes an `enabled`
flag defaulting to `true`. -/
def baseGetConfig (persisted : Config) : Config := fun k =>
  match persisted k with
  | some v => some v
  | none => if k = "enabled" then some (.bool true) else none

/-- Modelled from the spec: `BasePlugin.isEnabled` is missing from the
sources.  Per the spec it is "an enablement predicate derived from its
config": the truthiness of the merged `enabled` flag. -/
def isEnabledWith (cfg : Config) : Bool := isTruthy (cfg "enabled")

/-- `LastFM.getConfig` (`src/unnamed/part_003` lines 354-363): object
spread puts `sessionKey`/`username` defaults before `super.getConfig()`
and the hard-coded `apiKey`/`apiSecret` after it, so with JS spread
semantics the later keys win. -/
def lastfmGetConfig (persisted : Config) : Config := fun k =>
  if k = "apiKey" then some (.str "083dc925d5f8909a311691773d5de171")
  else if k = "apiSecret" then some (.str "a09d06b4c63593cce45c7324766445e2")
  else match baseGetConfig persisted k with
    | some v => some v
    | none =>
      if k = "sessionKey" then some (.str "")
      else if k = "username" then some (.str "")
      else none

/-- `CompanionServer.getConfig`
(`src/src/plugins/integrations/CompanionServer.ts` lines 162-167):
the `port: 9863` default comes before the spread of `super.getConfig()`,
so a persisted port wins. -/
def companionGetConfig (persisted : Config) : Config := fun k =>
  match baseGetConfig persisted k with
  | some v => some v
  | none => if k = "port" then some (.num 9863) else none

/-- `ListenBrainz.getConfig` (`ListenBrainz.ts` lines 229-234):
`token: ''` default before the spread of `super.getConfig()`. -/
def listenbrainzGetConfig (persisted : Config) : Config := fun k =>
  match baseGetConfig persisted k with
  | some v => some v
  | none => if k = "token" then some (.str "") else none

/-! ## Scrobbler session state machine

Embedding of the renderer-side scrobbler loops of the Last.fm plugin
(`src/unnamed/part_003`) and the ListenBrainz plugin
(`ListenBrainz.ts`).  Both scripts keep the mutable variables
`currentTrack`, `scrobbled`, `startTime`, `lastUpdateTime`.
-/

/-- Result of `getTrackInfo()`: track title, artist and optional album. -/
structure TrackInfo where
  track : String
  artist : String
  album : Option String
deriving DecidableEq

/-- The composite track identity computed by both `checkTrack`s:
`trackInfo.track + '|' + trackInfo.artist`
(`src/unnamed/part_003` line 213, `ListenBrainz.ts` line 131). -/
def trackKey (ti : TrackInfo) : String := ti.track ++ "|" ++ ti.artist

/-- The `currentTrack` object: `{ id: trackId, ...trackInfo }`. -/
structure CurrentTrack where
  id : String
  track : String
  artist : String
  album : Option String
deriving DecidableEq

/-- The `<video>` element fields read by the scrobblers.  `duration` is
`none` while the metadata is not loaded (JS `NaN`, falsy). -/
structure Video where
  currentTime : ℚ
  duration : Option ℚ
  paused : Bool

/-- The mutable session state of one scrobbler script instance:
`currentTrack`, `scrobbled`, `startTime` (ms clock reading or `null`)
and `lastUpdateTime` (ms, initially `0`). -/
structure ScrobState where
  currentTrack : Option CurrentTrack
  scrobbled : Bool
  startTime : Option Nat
  lastUpdateTime : Nat
deriving DecidableEq

/-- Initial script state: `currentTrack = null`, `scrobbled = false`,
`startTime = null`, `lastUpdateTime = 0`. -/
def initState : ScrobState :=
  { currentTrack := none, scrobbled := false, startTime := none, lastUpdateTime := 0 }

/-- Outbound submissions fired by a scrobbler step.  For Last.fm these
are `track.updateNowPlaying` and `track.scrobble`; for ListenBrainz the
`playing_now` and `import` listen types. -/
inductive Ev
| nowPlaying (artist track : String) (album : Option String)
| scrobble (artist track : String) (album : Option String) (timestamp : Nat)
deriving DecidableEq

/-- `UPDATE_INTERVAL = 30000` (both scripts, line 34). -/
def UPDATE_INTERVAL : Nat := 30000

/-- `updateNowPlaying` (`src/unnamed/part_003` lines 98-126): the push is
suppressed when `now - lastUpdateTime < UPDATE_INTERVAL`; otherwise
`lastUpdateTime` is set to `now` *before* the request is sent, and one
now-playing submission goes out (its network outcome does not feed back
into the state).  `ℕ` truncated subtraction agrees with the JS check:
a clock reading below `lastUpdateTime` is suppressed in both. -/
def updateNowPlaying (s : ScrobState) (artist track : String) (album : Option String)
    (now : Nat) : ScrobState × List Ev :=
  if now - s.lastUpdateTime < UPDATE_INTERVAL then (s, [])
  else ({ s with lastUpdateTime := now }, [.nowPlaying artist track album])

/-- JS truthiness of the `startTime` variable (`null` and `0` are falsy);
`Date.now()` readings are nonzero in reality. -/
def timeTruthy : Option Nat → Bool
| none => false
| some n => n ≠ 0

/-- `Math.max(duration * 0.5, 240)`
(`src/unnamed/part_003` line 232, `ListenBrainz.ts` line 150). -/
def scrobbleThreshold (duration : ℚ) : ℚ := max (duration * (1 / 2)) 240

/-- The new-track block of `checkTrack`
(`src/unnamed/part_003` lines 215-227): when `trackId !== currentTrack?.id`,
replace `currentTrack`, reset `scrobbled` to `false`, set
`startTime = Date.now()`, and call `updateNowPlaying` — which still
applies its own 30-second throttle. -/
def newTrackPhase (s : ScrobState) (ti : TrackInfo) (now : Nat) : ScrobState × List Ev :=
  if s.currentTrack.map CurrentTrack.id ≠ some (trackKey ti) then
    let s1 : ScrobState :=
      { s with currentTrack := some ⟨trackKey ti, ti.track, ti.artist, ti.album⟩,
               scrobbled := false, startTime := some now }
    updateNowPlaying s1 ti.artist ti.track ti.album now
  else (s, [])

/-- The new-track block of the ListenBrainz `checkTrack`
(`ListenBrainz.ts` lines 133-145): identical state update, but the
`playing_now` submission is fired directly by `submitListen` with no
throttle check. -/
def lbNewTrackPhase (s : ScrobState) (ti : TrackInfo) (now : Nat) : ScrobState × List Ev :=
  if s.currentTrack.map CurrentTrack.id ≠ some (trackKey ti) then
    ({ s with currentTrack := some ⟨trackKey ti, ti.track, ti.artist, ti.album⟩,
              scrobbled := false, startTime := some now },
     [.nowPlaying ti.artist ti.track ti.album])
  else (s, [])

/-- The scrobble block of `checkTrack` (`src/unnamed/part_003` lines
229-244; textually identical in `ListenBrainz.ts` lines 147-163):
guarded by `!scrobbled && video.currentTime > 0 && startTime`, it
compares the position against `Math.max((video.duration || 0) * 0.5, 240)`
and, when reached, fires the scrobble with timestamp
`Math.floor(startTime / 1000)` and sets `scrobbled = true` immediately
(fire-and-forget: the submission result is not awaited). -/
def scrobblePhase (s : ScrobState) (v : Video) : ScrobState × List Ev :=
  if !s.scrobbled && decide (0 < v.currentTime) && timeTruthy s.startTime then
    let duration := v.duration.getD 0
    if scrobbleThreshold duration ≤ v.currentTime then
      match s.startTime, s.currentTrack with
      | some st, some ct =>
        ({ s with scrobbled := true },
         [.scrobble ct.artist ct.track ct.album (st / 1000)])
      | _, _ => (s, [])
    else (s, [])
  else (s, [])

/-- The periodic now-playing block of the Last.fm `checkTrack`
(lines 246-253): while a track is current and the video is not paused,
call `updateNowPlaying` again (throttled). -/
def periodicPhase (s : ScrobState) (v : Video) (now : Nat) : ScrobState × List Ev :=
  match s.currentTrack with
  | some ct =>
    if !v.paused then updateNowPlaying s ct.artist ct.track ct.album now
    else (s, [])
  | none => (s, [])

/-- The Last.fm `checkTrack` (`src/unnamed/part_003` lines 203-254).
`trackInfo` or `video` being absent returns immediately. -/
def checkTrack (s : ScrobState) (trackInfo : Option TrackInfo) (video : Option Video)
    (now : Nat) : ScrobState × List Ev :=
  match trackInfo, video with
  | some ti, some v =>
    let r1 := newTrackPhase s ti now
    let r2 := scrobblePhase r1.1 v
    let r3 := periodicPhase r2.1 v now
    (r3.1, r1.2 ++ r2.2 ++ r3.2)
  | _, _ => (s, [])

/-- The ListenBrainz `checkTrack` (`ListenBrainz.ts` lines 123-169): no
periodic now-playing refresh ("We'll skip periodic updates"). -/
def lbCheckTrack (s : ScrobState) (trackInfo : Option TrackInfo) (video : Option Video)
    (now : Nat) : ScrobState × List Ev :=
  match trackInfo, video with
  | some ti, some v =>
    let r1 := lbNewTrackPhase s ti now
    let r2 := scrobblePhase r1.1 v
    (r2.1, r1.2 ++ r2.2)
  | _, _ => (s, [])

/-- One triggering signal for a scrobbler loop: the track info and video
element found at that trigger, plus the `Date.now()` reading. -/
structure Trigger where
  info : Option TrackInfo
  video : Option Video
  now : Nat

/-- Fold a scrobbler step function over a list of triggers, accumulating
the fired submissions. -/
def runEvents (g : ScrobState → Trigger → ScrobState × List Ev)
    (s : ScrobState) (ts : List Trigger) : ScrobState × List Ev :=
  ts.foldl (fun acc t =>
    let r := g acc.1 t
    (r.1, acc.2 ++ r.2)) (s, [])

/-- A tracking session run of the Last.fm `checkTrack` loop. -/
def runSession (s : ScrobState) (ts : List Trigger) : ScrobState × List Ev :=
  runEvents (fun s t => checkTrack s t.info t.video t.now) s ts

/-- A tracking session run of the ListenBrainz loop. -/
def lbRunSession (s : ScrobState) (ts : List Trigger) : ScrobState × List Ev :=
  runEvents (fun s t => lbCheckTrack s t.info t.video t.now) s ts

/-- Whether an outbound submission is a scrobble. -/
def isScrob : Ev → Bool
| .scrobble _ _ _ _ => true
| _ => false

/-- Number of scrobble submissions in an event list. -/
def scrobCount (evs : List Ev) : Nat := (evs.filter isScrob).length

/-- Number of now-playing submissions in an event list. -/
def npCount (evs : List Ev) : Nat := (evs.filter (fun e => !isScrob e)).length

/-! ## Companion query server

Embedding of `src/src/plugins/integrations/CompanionServer.ts`.
-/

/-- The `currentTrack` snapshot held by the companion server
(lines 18-27 / `updateState` lines 91-102). -/
structure CTrack where
  title : String
  artist : String
  album : String
  duration : ℚ
  position : ℚ
  isPaused : Bool
  cover : String
  id : String

/-- `updateState` (lines 91-102): `duration` is `songDuration || 0` and
`position` is `elapsedSeconds || 0`, so an absent duration becomes `0`. -/
def updateState (title artist album cover id : String)
    (songDuration elapsedSeconds : Option ℚ) (isPaused : Bool) : CTrack :=
  { title := title, artist := artist, album := album,
    duration := songDuration.getD 0, position := elapsedSeconds.getD 0,
    isPaused := isPaused, cover := cover, id := id }

/-- The player fields of the state JSON that the claims are about. -/
structure PlayerState where
  statePercent : ℚ
  playState : Nat
deriving DecidableEq

/-- `handleStateRequest` (lines 104-138): `statePercent` is
`duration > 0 ? position / duration : 0`, and the final `playState` is
`2` when `isPaused` and `1` otherwise (lines 128-134 overwrite the
initial ternary). -/
def handleStateRequest (t : CTrack) : PlayerState :=
  { statePercent := if 0 < t.duration then t.position / t.duration else 0,
    playState := if t.isPaused then 2 else 1 }

/-- HTTP methods reaching the listener; the router only distinguishes
`OPTIONS` from the rest. -/
inductive HMethod
| get
| post
| options
deriving DecidableEq

/-- Response bodies produced by the listener, as tagged values. -/
inductive RespBody
| empty
| stateJson (p : PlayerState)
| jsonError (msg : String)
| authCode (code : String)
| authToken (tok : String)
| authOk
deriving DecidableEq

/-- An HTTP response: status code and body. -/
structure Resp where
  status : Nat
  body : RespBody
deriving DecidableEq

/-- `String.prototype.startsWith`, over the character list (the
behaviour of `url?.startsWith('/api/v1/auth')` on defined urls). -/
def urlStartsWith (s p : String) : Bool := p.data.isPrefixOf s.data

/-- `handleAuthRequest` (lines 140-153): dummy auth; every
`/api/v1/auth*` path gets a 200. -/
def handleAuthRequest (url : String) : Resp :=
  if url = "/api/v1/auth/requestcode" then ⟨200, .authCode "123456"⟩
  else if url = "/api/v1/auth/request" then ⟨200, .authToken "dummy-token"⟩
  else ⟨200, .authOk⟩

/-- The request router of `startServer` (lines 50-70): `OPTIONS` → 204,
`/api/v1/state` and `/query` → state snapshot, any URL starting with
`/api/v1/auth` → `handleAuthRequest`, everything else → 404 with a JSON
error body. -/
def route (method : HMethod) (url : String) (t : CTrack) : Resp :=
  if method = .options then ⟨204, .empty⟩
  else if url = "/api/v1/state" ∨ url = "/query" then ⟨200, .stateJson (handleStateRequest t)⟩
  else if urlStartsWith url "/api/v1/auth" then handleAuthRequest url
  else ⟨404, .jsonError "Not found"⟩

/-! ## Renderer script injection and idempotency

The `onRendererLoaded` hooks decide whether a plugin's renderer script
is injected into a window; the injected routines may guard themselves
with a context-global marker.
-/

/-- `LastFM.onRendererLoaded` (`src/unnamed/part_003` lines 342-352):
skip when disabled, or when `apiKey`/`sessionKey` are missing from the
(merged) config; otherwise inject the renderer script.  The result is
`true` exactly when a script is injected into the window. -/
def lastfmOnRendererLoaded (persisted : Config) : Bool :=
  let cfg := lastfmGetConfig persisted
  if !isEnabledWith cfg then false
  else if !isTruthy (cfg "apiKey") || !isTruthy (cfg "sessionKey") then false
  else true

/-- `AudioOutput.onRendererLoaded`
(`src/src/plugins/audio/AudioOutput.ts` lines 12-19): builds the script
from the config and executes it unconditionally — there is no
`isEnabled()` check. -/
def audioOutputOnRendererLoaded (persisted : Config) : Bool :=
  let _cfg := baseGetConfig persisted
  true

/-- Observable renderer-context side-effect state for the idempotency
claims: the two context-global markers, and counts of repeating timers
and mutation observers installed by the scrobbler/presence routines. -/
structure Ctx where
  discordRPCInjected : Bool
  audioOutputInjected : Bool
  intervals : Nat
  observers : Nat
deriving DecidableEq

/-- The Discord RPC renderer routine
(`DiscordRPC.ts` lines 126-135 and body): returns at once when
`window.__discordRPCInjected` is set, otherwise sets the marker; when
the config is enabled it installs its heartbeat `setInterval`
(line 305). -/
def discordScriptRun (cfg : Config) (c : Ctx) : Ctx :=
  if c.discordRPCInjected then c
  else
    let c1 := { c with discordRPCInjected := true }
    if !isTruthy (cfg "enabled") then c1
    else { c1 with intervals := c1.intervals + 1 }

/-- The AudioOutput renderer routine (`AudioOutput.ts` lines 42-105):
returns at once when `window.__audioOutputInjected` is set, otherwise
sets the marker and installs one `MutationObserver` and one
`setInterval`. -/
def audioOutputScriptRun (c : Ctx) : Ctx :=
  if c.audioOutputInjected then c
  else { c with audioOutputInjected := true,
                intervals := c.intervals + 1, observers := c.observers + 1 }

/-- The Last.fm renderer routine (`src/unnamed/part_003` lines 18-337):
after the `enabled`/`apiKey`/`sessionKey` guard it does its work with
*no* context-global marker: each execution installs the navigation
`setInterval` (line 317), the fallback `setInterval(checkTrack, 5000)`
(line 306) and a `MutationObserver` (line 268). -/
def lastfmScriptRun (cfg : Config) (c : Ctx) : Ctx :=
  if !isTruthy (cfg "enabled") || !isTruthy (cfg "apiKey")
      || !isTruthy (cfg "sessionKey") then c
  else { c with intervals := c.intervals + 2, observers := c.observers + 1 }

/-! ## Concrete fixtures used by the closed theorems -/

/-- The initial `currentTrack` snapshot of the companion server
(`CompanionServer.ts` lines 19-27); the absent `id` is the empty
string. -/
def idleTrack : CTrack :=
  { title := "Idle", artist := "Waiting for music...", album := "",
    duration := 0, position := 0, isPaused := true, cover := "", id := "" }

/-- A persisted config that overrides `apiKey`. -/
def apiKeyOverride : Config := fun k =>
  if k = "apiKey" then some (.str "x") else none

/-- A persisted config with `enabled` set to `false`. -/
def disabledPersisted : Config := fun k =>
  if k = "enabled" then some (.bool false) else none

/-- A persisted Last.fm config of an authenticated, enabled user. -/
def authedPersisted : Config := fun k =>
  if k = "sessionKey" then some (.str "sk") else none

/-- A fresh renderer context: no markers, no timers, no observers. -/
def ctx0 : Ctx := { discordRPCInjected := false, audioOutputInjected := false,
                    intervals := 0, observers := 0 }

/-- A track info whose title contains the separator character. -/
def tiAmb1 : TrackInfo := { track := "a|b", artist := "c", album := none }

/-- A different track info with the same concatenated key. -/
def tiAmb2 : TrackInfo := { track := "a", artist := "b|c", album := none }

/-- A session state currently tracking `tiAmb1` (already scrobbled). -/
def sAmb : ScrobState :=
  { currentTrack := some { id := "a|b|c", track := "a|b", artist := "c", album := none },
    scrobbled := true, startTime := some 5000, lastUpdateTime := 0 }

/-- A paused video at position 0. -/
def vPaused : Video := { currentTime := 0, duration := some 200, paused := true }

/-- One triggering signal for `updateNowPlaying` at clock reading `t`:
the push is recorded as accepted when the throttle lets it through. -/
def npStep (acc : ScrobState × List Nat) (t : Nat) : ScrobState × List Nat :=
  let r := updateNowPlaying acc.1 "artist" "track" none t
  (r.1, if r.2.isEmpty then acc.2 else acc.2 ++ [t])

/-- The clock readings of the accepted now-playing pushes over a list of
triggering signals, starting from the fresh adapter state. -/
def npAccepted (ts : List Nat) : List Nat := (ts.foldl npStep (initState, [])).2

/-- The firing condition of the scrobble block: not yet scrobbled,
strictly positive position, truthy start timestamp, and position at or
past the threshold. -/
def fireCond (s : ScrobState) (v : Video) : Prop :=
  s.scrobbled = false ∧ 0 < v.currentTime ∧ timeTruthy s.startTime = true
  ∧ scrobbleThreshold (v.duration.getD 0) ≤ v.currentTime

/-- A state tracking "Song A" by "Artist A" whose last accepted
now-playing push was at 10 s. -/
def sC3 : ScrobState :=
  { currentTrack := some { id := "Song A|Artist A", track := "Song A",
                           artist := "Artist A", album := none },
    scrobbled := false, startTime := some 5000, lastUpdateTime := 10000 }

/-- A different track appearing 10 s after the last accepted push. -/
def tiC3 : TrackInfo := { track := "Song B", artist := "Artist B", album := none }

/-- A paused video at position 0 for the track-change trigger. -/
def vC3 : Video := { currentTime := 0, duration := some 200, paused := true }

/-- A state tracking "S" by "A", not yet scrobbled, started at 4 s. -/
def sC6 : ScrobState :=
  { currentTrack := some { id := "S|A", track := "S", artist := "A", album := none },
    scrobbled := false, startTime := some 4000, lastUpdateTime := 0 }

/-- The same track as `sC6` tracks. -/
def tiC6 : TrackInfo := { track := "S", artist := "A", album := none }

/-- A 300 s video at position 250 (past the 240 s threshold). -/
def v61 : Video := { currentTime := 250, duration := some 300, paused := true }

/-- The same video a little later, at position 260. -/
def v62 : Video := { currentTime := 260, duration := some 300, paused := true }

/-! ## C8: `statePercent` of the query server -/

/-- C8: every state snapshot has `statePercent = position / duration`
when `duration > 0` and `0` when the duration is `0` or absent (the
guard makes the handler total, never dividing by zero); in particular
`position = 90`, `duration = 180` yields `0.5`. -/
theorem statePercent_guarded :
    (∀ t : CTrack, 0 < t.duration →
      (handleStateRequest t).statePercent = t.position / t.duration)
    ∧ (∀ t : CTrack, t.duration = 0 → (handleStateRequest t).statePercent = 0)
    ∧ (∀ t1 a1 al1 c1 i1 pos paused,
        (handleStateRequest (updateState t1 a1 al1 c1 i1 none pos paused)).statePercent = 0)
    ∧ (handleStateRequest
        (updateState "T" "A" "Al" "C" "I" (some 180) (some 90) false)).statePercent = 1 / 2 := by
  refine ⟨fun t h => ?_, fun t h => ?_, fun t1 a1 al1 c1 i1 pos paused => ?_, ?_⟩
  · simp [handleStateRequest, h]
  · simp [handleStateRequest, h]
  · simp [handleStateRequest, updateState]
  · norm_num [handleStateRequest, updateState]

/-- Witness: the first conjunct of `statePercent_guarded` evaluated on a
concrete snapshot with `duration = 180`, `position = 90`. -/
theorem statePercent_guarded_witness :
    (handleStateRequest
      { title := "T", artist := "A", album := "", duration := 180, position := 90,
        isPaused := false, cover := "", id := "" }).statePercent = (90 : ℚ) / 180 :=
  statePercent_guarded.1 _ (by norm_num)

/-! ## C9: unmatched paths on the query server -/

/-- C9 counterexample: `GET /api/v1/auth/other` is none of the four
listed paths and is not `OPTIONS`, yet the server answers 200 (the
router forwards every path starting with `/api/v1/auth` to the dummy
auth handler), not 404. -/
theorem route_auth_prefix_not_404 :
    route .get "/api/v1/auth/other" idleTrack = ⟨200, .authOk⟩
    ∧ ("/api/v1/auth/other" : String) ≠ "/api/v1/state"
    ∧ ("/api/v1/auth/other" : String) ≠ "/query"
    ∧ ("/api/v1/auth/other" : String) ≠ "/api/v1/auth/requestcode"
    ∧ ("/api/v1/auth/other" : String) ≠ "/api/v1/auth/request" := by
  refine ⟨?_, by decide, by decide, by decide, by decide⟩
  simp [route, handleAuthRequest, urlStartsWith]

/-- C9 amended: every non-`OPTIONS` request whose path is neither
`/api/v1/state` nor `/query` and does not start with `/api/v1/auth`
gets a 404 with a JSON error body. -/
theorem route_unmatched_404 (m : HMethod) (url : String) (t : CTrack)
    (hm : m ≠ .options) (h1 : url ≠ "/api/v1/state") (h2 : url ≠ "/query")
    (h3 : urlStartsWith url "/api/v1/auth" = false) :
    route m url t = ⟨404, .jsonError "Not found"⟩ := by
  simp [route, hm, h1, h2, h3]

/-- Witness: `GET /nope` gets the 404 JSON error. -/
theorem route_unmatched_404_witness :
    route .get "/nope" idleTrack = ⟨404, .jsonError "Not found"⟩ :=
  route_unmatched_404 .get "/nope" idleTrack (by decide) (by decide) (by decide) (by decide)

/-! ## C10: config merge precedence -/

/-- C10 counterexample: a persisted override of `apiKey` is present in
the persisted config, yet `LastFM.getConfig` returns the hard-coded
value because `apiKey`/`apiSecret` are spread *after* the merge. -/
theorem lastfm_apiKey_override_loses :
    apiKeyOverride "apiKey" = some (.str "x")
    ∧ lastfmGetConfig apiKeyOverride "apiKey"
        = some (.str "083dc925d5f8909a311691773d5de171")
    ∧ (Val.str "x") ≠ .str "083dc925d5f8909a311691773d5de171" := by
  refine ⟨rfl, ?_, by decide⟩
  simp [lastfmGetConfig]

/-- C10 amended: the config view is author defaults merged with
persisted overrides and the persisted value wins whenever its key is
present — for `CompanionServer`'s `port` and for every `LastFM` key
other than `apiKey` and `apiSecret`; those two are hard-coded after the
merge and always take the baked-in values, regardless of persisted
overrides. -/
theorem config_merge_precedence :
    (∀ (p : Config) (v : Val), p "port" = some v → companionGetConfig p "port" = some v)
    ∧ (∀ (p : Config) (k : String) (v : Val), p k = some v →
        k ≠ "apiKey" → k ≠ "apiSecret" → lastfmGetConfig p k = some v)
    ∧ (∀ p : Config, lastfmGetConfig p "apiKey"
        = some (.str "083dc925d5f8909a311691773d5de171")
      ∧ lastfmGetConfig p "apiSecret"
        = some (.str "a09d06b4c63593cce45c7324766445e2")) := by
  refine ⟨fun p v h => ?_, fun p k v h hk1 hk2 => ?_, fun p => ⟨?_, ?_⟩⟩
  · simp [companionGetConfig, baseGetConfig, h]
  · simp [lastfmGetConfig, baseGetConfig, h, hk1, hk2]
  · simp [lastfmGetConfig]
  · simp [lastfmGetConfig]

/-- Witness: a persisted `port = 9864` wins in `CompanionServer`'s merged
config. -/
theorem config_merge_precedence_witness :
    companionGetConfig (fun k => if k = "port" then some (.num 9864) else none) "port"
      = some (.num 9864) :=
  config_merge_precedence.1 _ _ rfl

/-! ## C2: disabled plugins must not inject renderer scripts -/

/-- C2 evaluation at the failing input: with `enabled = false` persisted,
`LastFM.onRendererLoaded` injects nothing — but
`AudioOutput.onRendererLoaded` has no `isEnabled()` check and injects
its renderer script anyway, contradicting the spec's "no renderer
script for that plugin is ever injected". -/
theorem audioOutput_injects_when_disabled :
    isEnabledWith (baseGetConfig disabledPersisted) = false
    ∧ isEnabledWith (lastfmGetConfig disabledPersisted) = false
    ∧ lastfmOnRendererLoaded disabledPersisted = false
    ∧ audioOutputOnRendererLoaded disabledPersisted = true := by
  refine ⟨by decide, by decide, by decide, rfl⟩

/-! ## C5: idempotency of the injected renderer routines -/

/-- C5 counterexample: the Last.fm renderer routine has no context-global
marker; executing it a second time in the same context doubles the
installed timers (4 intervals instead of 2), so the second execution is
not a no-op. -/
theorem lastfm_script_not_idempotent :
    lastfmScriptRun (lastfmGetConfig authedPersisted)
        (lastfmScriptRun (lastfmGetConfig authedPersisted) ctx0)
      ≠ lastfmScriptRun (lastfmGetConfig authedPersisted) ctx0 := by
  decide

/-- C5 amended: the DiscordRPC and AudioOutput routines check and set a
context-global marker before doing any work, so a second execution in
the same context is a no-op; the Last.fm routine has no such marker and
a second execution installs a duplicate set of watchers and timers. -/
theorem renderer_script_idempotency :
    (∀ (cfg : Config) (c : Ctx), discordScriptRun cfg (discordScriptRun cfg c)
        = discordScriptRun cfg c)
    ∧ (∀ c : Ctx, audioOutputScriptRun (audioOutputScriptRun c) = audioOutputScriptRun c)
    ∧ (lastfmScriptRun (lastfmGetConfig authedPersisted) ctx0).intervals = 2
    ∧ (lastfmScriptRun (lastfmGetConfig authedPersisted)
        (lastfmScriptRun (lastfmGetConfig authedPersisted) ctx0)).intervals = 4 := by
  refine ⟨fun cfg c => ?_, fun c => ?_, by decide, by decide⟩
  · by_cases h : c.discordRPCInjected
    · simp [discordScriptRun, h]
    · by_cases he : isTruthy (cfg "enabled") <;> simp [discordScriptRun, h, he]
  · by_cases h : c.audioOutputInjected <;> simp [audioOutputScriptRun, h]

/-- Witness: re-running the DiscordRPC routine on a fresh context with an
enabled config changes nothing the second time. -/
theorem renderer_script_idempotency_witness :
    discordScriptRun (baseGetConfig authedPersisted)
        (discordScriptRun (baseGetConfig authedPersisted) ctx0)
      = discordScriptRun (baseGetConfig authedPersisted) ctx0 :=
  renderer_script_idempotency.1 _ _

/-! ## C7: track identity comparison -/

/-- C7 counterexample: `("a|b", "c")` and `("a", "b|c")` have different
titles but the same concatenated key `title + '|' + artist`, so while
tracking the first, `checkTrack` sees the second as the *same* track —
no new-track transition, refuting "same track iff titles equal and
artists equal". -/
theorem trackKey_collision :
    tiAmb1.track ≠ tiAmb2.track
    ∧ trackKey tiAmb1 = trackKey tiAmb2
    ∧ checkTrack sAmb (some tiAmb2) (some vPaused) 99999 = (sAmb, []) := by
  refine ⟨by decide, by decide, ?_⟩
  decide

/-- C7 amended: a new-track transition occurs exactly when the
concatenated key `title + '|' + artist` differs from the tracked one,
compared by case-sensitive string equality; fieldwise equality of
titles and artists implies "same track", but the converse fails when a
title contains the `|` separator. -/
theorem newTrack_transition_iff :
    (∀ a b : TrackInfo, a.track = b.track → a.artist = b.artist → trackKey a = trackKey b)
    ∧ (∀ (s : ScrobState) (ti : TrackInfo) (now : Nat),
        s.currentTrack.map CurrentTrack.id = some (trackKey ti) →
        newTrackPhase s ti now = (s, []) ∧ lbNewTrackPhase s ti now = (s, []))
    ∧ (∀ (s : ScrobState) (ti : TrackInfo) (now : Nat),
        s.currentTrack.map CurrentTrack.id ≠ some (trackKey ti) →
        (newTrackPhase s ti now).1.currentTrack
            = some ⟨trackKey ti, ti.track, ti.artist, ti.album⟩
        ∧ (lbNewTrackPhase s ti now).1.currentTrack
            = some ⟨trackKey ti, ti.track, ti.artist, ti.album⟩)
    ∧ trackKey tiAmb1 = trackKey tiAmb2 ∧ tiAmb1 ≠ tiAmb2 := by
  refine ⟨fun a b h1 h2 => ?_, fun s ti now h => ?_, fun s ti now h => ?_, by decide, by decide⟩
  · simp [trackKey, h1, h2]
  · constructor <;> simp [newTrackPhase, lbNewTrackPhase, h]
  · constructor
    · simp only [newTrackPhase, if_pos h, updateNowPlaying]
      split <;> rfl
    · simp [lbNewTrackPhase, h]

/-- Witness: while already tracking `tiAmb1`, a trigger carrying `tiAmb1`
again causes no new-track transition. -/
theorem newTrack_transition_iff_witness :
    newTrackPhase sAmb tiAmb1 7 = (sAmb, []) ∧ lbNewTrackPhase sAmb tiAmb1 7 = (sAmb, []) :=
  newTrack_transition_iff.2.1 sAmb tiAmb1 7 (by decide)

/-! ## C4: now-playing push throttling -/

lemma npAccepted_aux (ts : List Nat) : ∀ (s : ScrobState) (acc : List Nat),
    List.Chain' (fun a b => a + UPDATE_INTERVAL ≤ b) acc →
    (∀ x ∈ acc, x ≤ s.lastUpdateTime) →
    (acc = [] ∨ acc.getLast? = some s.lastUpdateTime) →
    List.Chain' (fun a b => a + UPDATE_INTERVAL ≤ b) (ts.foldl npStep (s, acc)).2 := by
  induction ts with
  | nil => intro s acc h1 _ _; simpa using h1
  | cons t ts ih =>
    intro s acc h1 h2 h3
    simp only [List.foldl_cons]
    by_cases h : t - s.lastUpdateTime < UPDATE_INTERVAL
    · have hstep : npStep (s, acc) t = (s, acc) := by
        simp [npStep, updateNowPlaying, h]
      rw [hstep]
      exact ih s acc h1 h2 h3
    · have hle : s.lastUpdateTime + UPDATE_INTERVAL ≤ t := by
        unfold UPDATE_INTERVAL at h ⊢; omega
      have hstep : npStep (s, acc) t = ({ s with lastUpdateTime := t }, acc ++ [t]) := by
        simp [npStep, updateNowPlaying, h]
      rw [hstep]
      have h1' : List.Chain' (fun a b => a + UPDATE_INTERVAL ≤ b) (acc ++ [t]) := by
        rw [List.chain'_append]
        refine ⟨h1, by simp, fun x hx y hy => ?_⟩
        have hx1 : x = s.lastUpdateTime := by
          rcases h3 with h3 | h3
          · simp [h3] at hx
          · rw [h3] at hx; exact (by simpa using hx : s.lastUpdateTime = x).symm
        have hy1 : y = t := ((by simpa using hy : t = y)).symm
        subst hx1; subst hy1; exact hle
      have h2' : ∀ x ∈ acc ++ [t], x ≤ ({ s with lastUpdateTime := t } : ScrobState).lastUpdateTime := by
        intro x hx
        show x ≤ t
        rcases List.mem_append.1 hx with hx | hx
        · exact le_trans (h2 x hx) (le_trans (Nat.le_add_right _ _) hle)
        · simp at hx; omega
      have h3' : acc ++ [t] = []
          ∨ (acc ++ [t]).getLast? = some ({ s with lastUpdateTime := t } : ScrobState).lastUpdateTime := by
        right; show (acc ++ [t]).getLast? = some t; simp
      exact ih _ _ h1' h2' h3'

/-- C4: for one adapter instance, the accepted now-playing pushes are at
least `UPDATE_INTERVAL = 30000` ms apart, no matter how many triggering
signals arrive; two triggering signals less than 30 s apart yield
exactly one accepted push, and two signals at least 30 s apart yield
two. -/
theorem nowPlaying_throttle :
    (∀ ts : List Nat, List.Chain' (fun a b => a + UPDATE_INTERVAL ≤ b) (npAccepted ts))
    ∧ (∀ t1 t2 : Nat, UPDATE_INTERVAL ≤ t1 → t2 - t1 < UPDATE_INTERVAL →
        npAccepted [t1, t2] = [t1])
    ∧ (∀ t1 t2 : Nat, UPDATE_INTERVAL ≤ t1 → t1 + UPDATE_INTERVAL ≤ t2 →
        npAccepted [t1, t2] = [t1, t2]) := by
  have hstep1 : ∀ t1 : Nat, UPDATE_INTERVAL ≤ t1 →
      npStep (initState, []) t1 = ({ initState with lastUpdateTime := t1 }, [t1]) := by
    intro t1 h1
    have hc : ¬ (t1 - initState.lastUpdateTime < UPDATE_INTERVAL) := by
      show ¬ (t1 - 0 < UPDATE_INTERVAL); omega
    simp [npStep, updateNowPlaying, hc]
  refine ⟨fun ts => npAccepted_aux ts initState [] (by simp) (by simp) (.inl rfl),
    fun t1 t2 h1 h2 => ?_, fun t1 t2 h1 h2 => ?_⟩
  · show ([t1, t2].foldl npStep (initState, [])).2 = [t1]
    simp only [List.foldl_cons, List.foldl_nil, hstep1 t1 h1]
    simp [npStep, updateNowPlaying, h2]
  · show ([t1, t2].foldl npStep (initState, [])).2 = [t1, t2]
    simp only [List.foldl_cons, List.foldl_nil, hstep1 t1 h1]
    have hc : ¬ (t2 - t1 < UPDATE_INTERVAL) := by omega
    simp [npStep, updateNowPlaying, hc]

/-- Witness: triggers at 30 s and 40 s yield one accepted push; triggers
at 30 s and 60 s yield two. -/
theorem nowPlaying_throttle_witness :
    npAccepted [30000, 40000] = [30000] ∧ npAccepted [30000, 60000] = [30000, 60000] :=
  ⟨nowPlaying_throttle.2.1 30000 40000 (by decide) (by decide),
   nowPlaying_throttle.2.2 30000 60000 (by decide) (by decide)⟩

/-! ## Helper lemmas about the scrobbler phases -/

lemma scrobCount_append (a b : List Ev) : scrobCount (a ++ b) = scrobCount a + scrobCount b := by
  simp [scrobCount, List.filter_append]

lemma npCount_append (a b : List Ev) : npCount (a ++ b) = npCount a + npCount b := by
  simp [npCount, List.filter_append]

lemma updateNowPlaying_fields (s : ScrobState) (a b : String) (c : Option String) (now : Nat) :
    (updateNowPlaying s a b c now).1.currentTrack = s.currentTrack
    ∧ (updateNowPlaying s a b c now).1.scrobbled = s.scrobbled
    ∧ (updateNowPlaying s a b c now).1.startTime = s.startTime
    ∧ scrobCount (updateNowPlaying s a b c now).2 = 0 := by
  unfold updateNowPlaying
  split <;> simp [scrobCount, isScrob]

lemma updateNowPlaying_emits (s : ScrobState) (a b : String) (c : Option String) (now : Nat) :
    (updateNowPlaying s a b c now).2
      = (if s.lastUpdateTime + UPDATE_INTERVAL ≤ now then [.nowPlaying a b c] else [])
    ∧ (updateNowPlaying s a b c now).1.lastUpdateTime
      = (if s.lastUpdateTime + UPDATE_INTERVAL ≤ now then now else s.lastUpdateTime) := by
  unfold updateNowPlaying
  by_cases hc : s.lastUpdateTime + UPDATE_INTERVAL ≤ now
  · have hn : ¬ (now - s.lastUpdateTime < UPDATE_INTERVAL) := by
      unfold UPDATE_INTERVAL at *; omega
    rw [if_neg hn, if_pos hc, if_pos hc]
    exact ⟨rfl, rfl⟩
  · have hn : now - s.lastUpdateTime < UPDATE_INTERVAL := by
      unfold UPDATE_INTERVAL at *; omega
    rw [if_pos hn, if_neg hc, if_neg hc]
    exact ⟨rfl, rfl⟩

lemma periodicPhase_fields (s : ScrobState) (v : Video) (now : Nat) :
    (periodicPhase s v now).1.currentTrack = s.currentTrack
    ∧ (periodicPhase s v now).1.scrobbled = s.scrobbled
    ∧ (periodicPhase s v now).1.startTime = s.startTime
    ∧ scrobCount (periodicPhase s v now).2 = 0 := by
  cases hct : s.currentTrack with
  | none => simp [periodicPhase, hct, scrobCount]
  | some ct =>
    simp only [periodicPhase, hct]
    split
    · have h := updateNowPlaying_fields s ct.artist ct.track ct.album now
      exact ⟨h.1.trans hct, h.2.1, h.2.2.1, h.2.2.2⟩
    · exact ⟨hct, rfl, rfl, by simp [scrobCount]⟩

lemma periodicPhase_suppressed (s : ScrobState) (v : Video) (now : Nat)
    (h : ¬ (s.lastUpdateTime + UPDATE_INTERVAL ≤ now)) :
    (periodicPhase s v now).2 = [] := by
  cases hct : s.currentTrack with
  | none => simp [periodicPhase, hct]
  | some ct =>
    simp only [periodicPhase, hct]
    split
    · rw [(updateNowPlaying_emits s ct.artist ct.track ct.album now).1, if_neg h]
    · rfl

lemma newTrackPhase_same (s : ScrobState) (ti : TrackInfo) (now : Nat)
    (h : s.currentTrack.map CurrentTrack.id = some (trackKey ti)) :
    newTrackPhase s ti now = (s, []) := by
  simp [newTrackPhase, h]

lemma newTrackPhase_new (s : ScrobState) (ti : TrackInfo) (now : Nat)
    (h : s.currentTrack.map CurrentTrack.id ≠ some (trackKey ti)) :
    (newTrackPhase s ti now).1.currentTrack
        = some ⟨trackKey ti, ti.track, ti.artist, ti.album⟩
    ∧ (newTrackPhase s ti now).1.scrobbled = false
    ∧ (newTrackPhase s ti now).1.startTime = some now
    ∧ (newTrackPhase s ti now).2
        = (if s.lastUpdateTime + UPDATE_INTERVAL ≤ now then [.nowPlaying ti.artist ti.track ti.album] else [])
    ∧ (newTrackPhase s ti now).1.lastUpdateTime
        = (if s.lastUpdateTime + UPDATE_INTERVAL ≤ now then now else s.lastUpdateTime) := by
  simp only [newTrackPhase, if_pos h]
  have h1 := updateNowPlaying_fields
    ({ s with currentTrack := some ⟨trackKey ti, ti.track, ti.artist, ti.album⟩,
              scrobbled := false, startTime := some now } : ScrobState)
    ti.artist ti.track ti.album now
  have h2 := updateNowPlaying_emits
    ({ s with currentTrack := some ⟨trackKey ti, ti.track, ti.artist, ti.album⟩,
              scrobbled := false, startTime := some now } : ScrobState)
    ti.artist ti.track ti.album now
  exact ⟨h1.1, h1.2.1, h1.2.2.1, h2.1, h2.2⟩

lemma newTrackPhase_track (s : ScrobState) (ti : TrackInfo) (now : Nat) :
    (newTrackPhase s ti now).1.currentTrack.map CurrentTrack.id = some (trackKey ti)
    ∧ scrobCount (newTrackPhase s ti now).2 = 0 := by
  by_cases h : s.currentTrack.map CurrentTrack.id = some (trackKey ti)
  · rw [newTrackPhase_same s ti now h]
    exact ⟨h, by simp [scrobCount]⟩
  · have h1 := newTrackPhase_new s ti now h
    refine ⟨by rw [h1.1]; rfl, ?_⟩
    rw [h1.2.2.2.1]
    split <;> simp [scrobCount, isScrob]

lemma scrobblePhase_fire (s : ScrobState) (v : Video) (ct : CurrentTrack) (st : Nat)
    (hct : s.currentTrack = some ct) (hst : s.startTime = some st) (h : fireCond s v) :
    scrobblePhase s v
      = ({ s with scrobbled := true }, [.scrobble ct.artist ct.track ct.album (st / 1000)]) := by
  obtain ⟨h1, h2, h3, h4⟩ := h
  unfold scrobblePhase
  rw [if_pos, if_pos h4]
  · rw [hst, hct]
  · simp [h1, h2, h3]

lemma scrobblePhase_nofire (s : ScrobState) (v : Video) (h : ¬ fireCond s v) :
    scrobblePhase s v = (s, []) := by
  unfold fireCond at h
  unfold scrobblePhase
  by_cases h1 : s.scrobbled
  · simp [h1]
  · by_cases h2 : 0 < v.currentTime
    · by_cases h3 : timeTruthy s.startTime
      · have h4 : ¬ scrobbleThreshold (v.duration.getD 0) ≤ v.currentTime := by
          simp only [Bool.not_eq_true] at h1
          tauto
        rw [if_pos, if_neg h4]
        simp [h1, h2, h3]
      · rw [if_neg]
        simp [h3]
    · rw [if_neg]
      simp [h2]

lemma scrobblePhase_noct (s : ScrobState) (v : Video) (hct : s.currentTrack = none) :
    scrobblePhase s v = (s, []) := by
  unfold scrobblePhase
  split
  · split
    · rename_i st ct heq1 heq2
      rw [hct] at heq2
      exact absurd heq2 (by simp)
    · show (if scrobbleThreshold (v.duration.getD 0) ≤ v.currentTime
          then ((s : ScrobState), ([] : List Ev)) else (s, [])) = (s, [])
      split <;> rfl
  · rfl

lemma scrobblePhase_char (s : ScrobState) (v : Video) :
    scrobCount (scrobblePhase s v).2 ≤ 1
    ∧ (scrobblePhase s v).1.currentTrack = s.currentTrack
    ∧ (scrobblePhase s v).1.startTime = s.startTime
    ∧ (scrobblePhase s v).1.lastUpdateTime = s.lastUpdateTime
    ∧ (s.scrobbled = true → scrobblePhase s v = (s, []))
    ∧ (scrobCount (scrobblePhase s v).2 = 1 → (scrobblePhase s v).1.scrobbled = true)
    ∧ npCount (scrobblePhase s v).2 = 0 := by
  by_cases h : fireCond s v
  · cases hct : s.currentTrack with
    | none =>
      rw [scrobblePhase_noct s v hct]
      exact ⟨by simp [scrobCount], hct, rfl, rfl, fun _ => rfl,
        by intro hc; simp [scrobCount] at hc, by simp [npCount]⟩
    | some ct =>
      have hst : ∃ st, s.startTime = some st := by
        cases hsta : s.startTime with
        | none =>
          have h3 := h.2.2.1
          rw [hsta] at h3
          exact absurd h3 (by simp [timeTruthy])
        | some st => exact ⟨st, rfl⟩
      obtain ⟨st, hst⟩ := hst
      rw [scrobblePhase_fire s v ct st hct hst h]
      refine ⟨by simp [scrobCount, isScrob], hct, rfl, rfl, ?_, fun _ => rfl,
        by simp [npCount, isScrob]⟩
      intro hscr
      exact (Bool.false_ne_true (h.1.symm.trans hscr)).elim
  · rw [scrobblePhase_nofire s v h]
    exact ⟨by simp [scrobCount], rfl, rfl, rfl, fun _ => rfl,
      by intro hc; simp [scrobCount] at hc, by simp [npCount]⟩

lemma checkTrack_no_info (s : ScrobState) (vid : Option Video) (now : Nat) :
    checkTrack s none vid now = (s, []) := by
  cases vid <;> rfl

lemma checkTrack_no_video (s : ScrobState) (ti : TrackInfo) (now : Nat) :
    checkTrack s (some ti) none now = (s, []) := rfl

lemma lbCheckTrack_no_info (s : ScrobState) (vid : Option Video) (now : Nat) :
    lbCheckTrack s none vid now = (s, []) := by
  cases vid <;> rfl

lemma lbCheckTrack_no_video (s : ScrobState) (ti : TrackInfo) (now : Nat) :
    lbCheckTrack s (some ti) none now = (s, []) := rfl

lemma checkTrack_char (s : ScrobState) (ti : TrackInfo) (v : Video) (now : Nat) :
    scrobCount (checkTrack s (some ti) (some v) now).2 ≤ 1
    ∧ (checkTrack s (some ti) (some v) now).1.currentTrack.map CurrentTrack.id
        = some (trackKey ti)
    ∧ (scrobCount (checkTrack s (some ti) (some v) now).2 = 1
        → (checkTrack s (some ti) (some v) now).1.scrobbled = true)
    ∧ (s.scrobbled = true → s.currentTrack.map CurrentTrack.id = some (trackKey ti)
        → scrobCount (checkTrack s (some ti) (some v) now).2 = 0
          ∧ (checkTrack s (some ti) (some v) now).1.scrobbled = true) := by
  have hev : (checkTrack s (some ti) (some v) now).2
      = (newTrackPhase s ti now).2 ++ (scrobblePhase (newTrackPhase s ti now).1 v).2
        ++ (periodicPhase (scrobblePhase (newTrackPhase s ti now).1 v).1 v now).2 := rfl
  have hfin : (checkTrack s (some ti) (some v) now).1
      = (periodicPhase (scrobblePhase (newTrackPhase s ti now).1 v).1 v now).1 := rfl
  obtain ⟨hnt_id, hnt_cnt⟩ := newTrackPhase_track s ti now
  obtain ⟨hsp_le, hsp_ct, _, _, _, hsp_scr, _⟩ :=
    scrobblePhase_char (newTrackPhase s ti now).1 v
  obtain ⟨hpp_ct, hpp_scr, _, hpp_cnt⟩ :=
    periodicPhase_fields (scrobblePhase (newTrackPhase s ti now).1 v).1 v now
  refine ⟨?_, ?_, ?_, ?_⟩
  · rw [hev, scrobCount_append, scrobCount_append, hnt_cnt, hpp_cnt]
    omega
  · rw [hfin, hpp_ct, hsp_ct]
    exact hnt_id
  · intro hc
    rw [hev, scrobCount_append, scrobCount_append, hnt_cnt, hpp_cnt] at hc
    have hsp1 : scrobCount (scrobblePhase (newTrackPhase s ti now).1 v).2 = 1 := by omega
    rw [hfin, hpp_scr]
    exact hsp_scr hsp1
  · intro hscr hid
    have hsame : newTrackPhase s ti now = (s, []) := newTrackPhase_same s ti now hid
    have hnoop : scrobblePhase s v = (s, []) := (scrobblePhase_char s v).2.2.2.2.1 hscr
    have hev2 : (checkTrack s (some ti) (some v) now).2 = (periodicPhase s v now).2 := by
      rw [hev, hsame]
      show ([] : List Ev) ++ (scrobblePhase s v).2
          ++ (periodicPhase (scrobblePhase s v).1 v now).2 = _
      rw [hnoop]
      show ([] : List Ev) ++ [] ++ (periodicPhase s v now).2 = _
      simp
    have hfin2 : (checkTrack s (some ti) (some v) now).1 = (periodicPhase s v now).1 := by
      rw [hfin, hsame]
      show (periodicPhase (scrobblePhase s v).1 v now).1 = _
      rw [hnoop]
    refine ⟨?_, ?_⟩
    · rw [hev2]
      exact (periodicPhase_fields s v now).2.2.2
    · rw [hfin2, (periodicPhase_fields s v now).2.1]
      exact hscr

lemma lbCheckTrack_char (s : ScrobState) (ti : TrackInfo) (v : Video) (now : Nat) :
    scrobCount (lbCheckTrack s (some ti) (some v) now).2 ≤ 1
    ∧ (lbCheckTrack s (some ti) (some v) now).1.currentTrack.map CurrentTrack.id
        = some (trackKey ti)
    ∧ (scrobCount (lbCheckTrack s (some ti) (some v) now).2 = 1
        → (lbCheckTrack s (some ti) (some v) now).1.scrobbled = true)
    ∧ (s.scrobbled = true → s.currentTrack.map CurrentTrack.id = some (trackKey ti)
        → scrobCount (lbCheckTrack s (some ti) (some v) now).2 = 0
          ∧ (lbCheckTrack s (some ti) (some v) now).1.scrobbled = true) := by
  have hev : (lbCheckTrack s (some ti) (some v) now).2
      = (lbNewTrackPhase s ti now).2 ++ (scrobblePhase (lbNewTrackPhase s ti now).1 v).2 := rfl
  have hfin : (lbCheckTrack s (some ti) (some v) now).1
      = (scrobblePhase (lbNewTrackPhase s ti now).1 v).1 := rfl
  have hlb_id : (lbNewTrackPhase s ti now).1.currentTrack.map CurrentTrack.id
        = some (trackKey ti)
      ∧ scrobCount (lbNewTrackPhase s ti now).2 = 0 := by
    unfold lbNewTrackPhase
    split
    · exact ⟨rfl, by simp [scrobCount, isScrob]⟩
    · rename_i hcond
      rw [not_not] at hcond
      exact ⟨hcond, by simp [scrobCount]⟩
  obtain ⟨hsp_le, hsp_ct, _, _, _, hsp_scr, _⟩ :=
    scrobblePhase_char (lbNewTrackPhase s ti now).1 v
  refine ⟨?_, ?_, ?_, ?_⟩
  · rw [hev, scrobCount_append, hlb_id.2]
    omega
  · rw [hfin, hsp_ct]
    exact hlb_id.1
  · intro hc
    rw [hev, scrobCount_append, hlb_id.2] at hc
    rw [hfin]
    exact hsp_scr (by omega)
  · intro hscr hid
    have hsame : lbNewTrackPhase s ti now = (s, []) := by
      unfold lbNewTrackPhase
      rw [if_neg (not_not_intro hid)]
    have hnoop : scrobblePhase s v = (s, []) := (scrobblePhase_char s v).2.2.2.2.1 hscr
    have hev2 : (lbCheckTrack s (some ti) (some v) now).2 = [] := by
      rw [hev, hsame]
      show ([] : List Ev) ++ (scrobblePhase s v).2 = []
      rw [hnoop]
      rfl
    have hfin2 : (lbCheckTrack s (some ti) (some v) now).1 = s := by
      rw [hfin, hsame]
      show (scrobblePhase s v).1 = s
      rw [hnoop]
    exact ⟨by rw [hev2]; simp [scrobCount], by rw [hfin2]; exact hscr⟩

lemma runEvents_aux (g : ScrobState → Trigger → ScrobState × List Ev) (ts : List Trigger) :
    ∀ (s : ScrobState) (evs : List Ev),
    (ts.foldl (fun acc t => let r := g acc.1 t; (r.1, acc.2 ++ r.2)) (s, evs))
      = ((runEvents g s ts).1, evs ++ (runEvents g s ts).2) := by
  induction ts with
  | nil => intro s evs; simp [runEvents]
  | cons t ts ih =>
    intro s evs
    simp only [runEvents, List.foldl_cons] at *
    rw [ih (g s t).1 (evs ++ (g s t).2), ih (g s t).1 ([] ++ (g s t).2)]
    simp

lemma runEvents_cons (g : ScrobState → Trigger → ScrobState × List Ev)
    (s : ScrobState) (t : Trigger) (ts : List Trigger) :
    runEvents g s (t :: ts)
      = ((runEvents g (g s t).1 ts).1, (g s t).2 ++ (runEvents g (g s t).1 ts).2) := by
  show List.foldl _ _ (t :: ts) = _
  rw [List.foldl_cons]
  have h := runEvents_aux g ts (g s t).1 ((⟨s, []⟩ : ScrobState × List Ev).2 ++ (g s t).2)
  simp only at h
  rw [h]
  simp

lemma runEvents_scrob_bound (g : ScrobState → Trigger → ScrobState × List Ev) (k : String)
    (hg : ∀ (s : ScrobState) (t : Trigger), (∀ ti, t.info = some ti → trackKey ti = k) →
      scrobCount (g s t).2 ≤ 1
      ∧ (scrobCount (g s t).2 = 1
          → (g s t).1.scrobbled = true
            ∧ (g s t).1.currentTrack.map CurrentTrack.id = some k)
      ∧ (s.scrobbled = true → s.currentTrack.map CurrentTrack.id = some k
          → scrobCount (g s t).2 = 0 ∧ (g s t).1.scrobbled = true
            ∧ (g s t).1.currentTrack.map CurrentTrack.id = some k)) :
    ∀ (ts : List Trigger) (s : ScrobState),
    (∀ t ∈ ts, ∀ ti, t.info = some ti → trackKey ti = k) →
    scrobCount (runEvents g s ts).2 ≤
      (if s.scrobbled = true ∧ s.currentTrack.map CurrentTrack.id = some k then 0 else 1) := by
  intro ts
  induction ts with
  | nil =>
    intro s _
    simp only [runEvents, List.foldl_nil]
    have : scrobCount [] = 0 := by simp [scrobCount]
    rw [this]
    split <;> omega
  | cons t ts ih =>
    intro s hts
    have hstep := hg s t (hts t (by simp))
    have htail : ∀ t2 ∈ ts, ∀ ti, t2.info = some ti → trackKey ti = k := by
      intro t2 ht2 ti hti
      exact hts t2 (by simp [ht2]) ti hti
    rw [runEvents_cons, scrobCount_append]
    by_cases hs : s.scrobbled = true ∧ s.currentTrack.map CurrentTrack.id = some k
    · rw [if_pos hs]
      obtain ⟨hc0, hscr1, hid1⟩ := hstep.2.2 hs.1 hs.2
      have := ih (g s t).1 htail
      rw [if_pos ⟨hscr1, hid1⟩] at this
      omega
    · rw [if_neg hs]
      by_cases hc : scrobCount (g s t).2 = 1
      · obtain ⟨hscr1, hid1⟩ := hstep.2.1 hc
        have := ih (g s t).1 htail
        rw [if_pos ⟨hscr1, hid1⟩] at this
        omega
      · have hc0 : scrobCount (g s t).2 = 0 := by
          have := hstep.1
          omega
        have htl := ih (g s t).1 htail
        have : scrobCount (runEvents g (g s t).1 ts).2 ≤ 1 := by
          refine le_trans htl ?_
          split <;> omega
        omega

lemma scrobFilter_nil (evs : List Ev) (h : scrobCount evs = 0) : evs.filter isScrob = [] := by
  simpa [scrobCount, List.length_eq_zero] using h

lemma checkTrack_same_decomp (s : ScrobState) (ti : TrackInfo) (v : Video) (now : Nat)
    (hid : s.currentTrack.map CurrentTrack.id = some (trackKey ti)) :
    (checkTrack s (some ti) (some v) now).2
      = (scrobblePhase s v).2 ++ (periodicPhase (scrobblePhase s v).1 v now).2
    ∧ (checkTrack s (some ti) (some v) now).1
      = (periodicPhase (scrobblePhase s v).1 v now).1 := by
  have hsame : newTrackPhase s ti now = (s, []) := newTrackPhase_same s ti now hid
  constructor
  · show (newTrackPhase s ti now).2 ++ (scrobblePhase (newTrackPhase s ti now).1 v).2
        ++ (periodicPhase (scrobblePhase (newTrackPhase s ti now).1 v).1 v now).2 = _
    rw [hsame]
    show ([] : List Ev) ++ (scrobblePhase s v).2
        ++ (periodicPhase (scrobblePhase s v).1 v now).2 = _
    simp
  · show (periodicPhase (scrobblePhase (newTrackPhase s ti now).1 v).1 v now).1 = _
    rw [hsame]

lemma lbCheckTrack_same_decomp (s : ScrobState) (ti : TrackInfo) (v : Video) (now : Nat)
    (hid : s.currentTrack.map CurrentTrack.id = some (trackKey ti)) :
    (lbCheckTrack s (some ti) (some v) now).2 = (scrobblePhase s v).2
    ∧ (lbCheckTrack s (some ti) (some v) now).1 = (scrobblePhase s v).1 := by
  have hsame : lbNewTrackPhase s ti now = (s, []) := by
    unfold lbNewTrackPhase
    rw [if_neg (not_not_intro hid)]
  constructor
  · show (lbNewTrackPhase s ti now).2 ++ (scrobblePhase (lbNewTrackPhase s ti now).1 v).2 = _
    rw [hsame]
    show ([] : List Ev) ++ (scrobblePhase s v).2 = _
    simp
  · show (scrobblePhase (lbNewTrackPhase s ti now).1 v).1 = _
    rw [hsame]

lemma fire_iff (s : ScrobState) (v : Video) (hnz : s.startTime ≠ some 0) (ct : CurrentTrack)
    (hct : s.currentTrack = some ct) :
    scrobCount (scrobblePhase s v).2 = 1 ↔
      (s.scrobbled = false ∧ 0 < v.currentTime ∧ s.startTime.isSome
       ∧ scrobbleThreshold (v.duration.getD 0) ≤ v.currentTime) := by
  have htruthy : timeTruthy s.startTime = true ↔ s.startTime.isSome := by
    cases hsta : s.startTime with
    | none => simp [timeTruthy]
    | some n =>
      have hn : n ≠ 0 := by
        intro h0
        rw [h0] at hsta
        exact hnz hsta
      simp [timeTruthy, hn]
  constructor
  · intro hc
    by_cases hf : fireCond s v
    · obtain ⟨h1, h2, h3, h4⟩ := hf
      exact ⟨h1, h2, htruthy.mp h3, h4⟩
    · rw [scrobblePhase_nofire s v hf] at hc
      simp [scrobCount] at hc
  · rintro ⟨h1, h2, h3, h4⟩
    have hf : fireCond s v := ⟨h1, h2, htruthy.mpr h3, h4⟩
    have hst : ∃ st, s.startTime = some st := by
      cases hsta : s.startTime with
      | none => rw [hsta] at h3; simp at h3
      | some st => exact ⟨st, rfl⟩
    obtain ⟨st, hst⟩ := hst
    rw [scrobblePhase_fire s v ct st hct hst hf]
    simp [scrobCount, isScrob]

lemma scrobblePhase_fire_events (s : ScrobState) (v : Video) (ct : CurrentTrack) (st : Nat)
    (hct : s.currentTrack = some ct) (hst : s.startTime = some st) (hf : fireCond s v) :
    (scrobblePhase s v).2.filter isScrob = [.scrobble ct.artist ct.track ct.album (st / 1000)]
    ∧ (scrobblePhase s v).1.scrobbled = true := by
  rw [scrobblePhase_fire s v ct st hct hst hf]
  simp [isScrob]

lemma scrobblePhase_scr_iff (s : ScrobState) (v : Video) (hscr : s.scrobbled = false) :
    ((scrobblePhase s v).1.scrobbled = true ↔ scrobCount (scrobblePhase s v).2 = 1) := by
  by_cases h : fireCond s v
  · cases hct : s.currentTrack with
    | none =>
      rw [scrobblePhase_noct s v hct]
      simp [hscr, scrobCount]
    | some ct =>
      have hst : ∃ st, s.startTime = some st := by
        cases hsta : s.startTime with
        | none =>
          have h3 := h.2.2.1
          rw [hsta] at h3
          exact absurd h3 (by simp [timeTruthy])
        | some st => exact ⟨st, rfl⟩
      obtain ⟨st, hst⟩ := hst
      rw [scrobblePhase_fire s v ct st hct hst h]
      simp [scrobCount, isScrob]
  · rw [scrobblePhase_nofire s v h]
    simp [hscr, scrobCount]

lemma checkTrack_bound_hg (k : String) (s : ScrobState) (t : Trigger)
    (hkt : ∀ ti, t.info = some ti → trackKey ti = k) :
    scrobCount (checkTrack s t.info t.video t.now).2 ≤ 1
    ∧ (scrobCount (checkTrack s t.info t.video t.now).2 = 1
        → (checkTrack s t.info t.video t.now).1.scrobbled = true
          ∧ (checkTrack s t.info t.video t.now).1.currentTrack.map CurrentTrack.id = some k)
    ∧ (s.scrobbled = true → s.currentTrack.map CurrentTrack.id = some k
        → scrobCount (checkTrack s t.info t.video t.now).2 = 0
          ∧ (checkTrack s t.info t.video t.now).1.scrobbled = true
          ∧ (checkTrack s t.info t.video t.now).1.currentTrack.map CurrentTrack.id = some k) := by
  rcases hinfo : t.info with _ | ti
  · rw [checkTrack_no_info]
    refine ⟨by simp [scrobCount], ?_, ?_⟩
    · intro hc; simp [scrobCount] at hc
    · intro h1 h2; exact ⟨by simp [scrobCount], h1, h2⟩
  · rcases hvid : t.video with _ | v
    · rw [checkTrack_no_video]
      refine ⟨by simp [scrobCount], ?_, ?_⟩
      · intro hc; simp [scrobCount] at hc
      · intro h1 h2; exact ⟨by simp [scrobCount], h1, h2⟩
    · have hkk : trackKey ti = k := hkt ti hinfo
      obtain ⟨c1, c2, c3, c4⟩ := checkTrack_char s ti v t.now
      rw [hkk] at c2
      refine ⟨c1, fun hc => ⟨c3 hc, c2⟩, fun h1 h2 => ?_⟩
      have h2a : s.currentTrack.map CurrentTrack.id = some (trackKey ti) := by
        rw [hkk]; exact h2
      obtain ⟨d1, d2⟩ := c4 h1 h2a
      exact ⟨d1, d2, c2⟩

lemma lbCheckTrack_bound_hg (k : String) (s : ScrobState) (t : Trigger)
    (hkt : ∀ ti, t.info = some ti → trackKey ti = k) :
    scrobCount (lbCheckTrack s t.info t.video t.now).2 ≤ 1
    ∧ (scrobCount (lbCheckTrack s t.info t.video t.now).2 = 1
        → (lbCheckTrack s t.info t.video t.now).1.scrobbled = true
          ∧ (lbCheckTrack s t.info t.video t.now).1.currentTrack.map CurrentTrack.id = some k)
    ∧ (s.scrobbled = true → s.currentTrack.map CurrentTrack.id = some k
        → scrobCount (lbCheckTrack s t.info t.video t.now).2 = 0
          ∧ (lbCheckTrack s t.info t.video t.now).1.scrobbled = true
          ∧ (lbCheckTrack s t.info t.video t.now).1.currentTrack.map CurrentTrack.id = some k) := by
  rcases hinfo : t.info with _ | ti
  · rw [lbCheckTrack_no_info]
    refine ⟨by simp [scrobCount], ?_, ?_⟩
    · intro hc; simp [scrobCount] at hc
    · intro h1 h2; exact ⟨by simp [scrobCount], h1, h2⟩
  · rcases hvid : t.video with _ | v
    · rw [lbCheckTrack_no_video]
      refine ⟨by simp [scrobCount], ?_, ?_⟩
      · intro hc; simp [scrobCount] at hc
      · intro h1 h2; exact ⟨by simp [scrobCount], h1, h2⟩
    · have hkk : trackKey ti = k := hkt ti hinfo
      obtain ⟨c1, c2, c3, c4⟩ := lbCheckTrack_char s ti v t.now
      rw [hkk] at c2
      refine ⟨c1, fun hc => ⟨c3 hc, c2⟩, fun h1 h2 => ?_⟩
      have h2a : s.currentTrack.map CurrentTrack.id = some (trackKey ti) := by
        rw [hkk]; exact h2
      obtain ⟨d1, d2⟩ := c4 h1 h2a
      exact ⟨d1, d2, c2⟩

/-! ## C1: scrobble-once semantics of the tracking sessions -/

/-- C1: in both scrobbler loops, the scrobble fires exactly once per
track identity per tracking session: with a tracked identity, a trigger
fires the scrobble iff the session has not scrobbled yet, the position
is strictly positive, a (nonzero) start timestamp exists, and the
position has reached `max(duration * 0.5, 240)` (duration 300 → 240,
duration 1000 → 500); the fired scrobble carries the Unix timestamp
`floor(startTime / 1000)`; and over any run of triggers with a single
identity, starting from the fresh script state, at most one scrobble is
submitted. -/
theorem scrobble_once_per_identity :
    (∀ (s : ScrobState) (ti : TrackInfo) (v : Video) (now : Nat) (ct : CurrentTrack),
        s.currentTrack = some ct → ct.id = trackKey ti → s.startTime ≠ some 0 →
        (scrobCount (checkTrack s (some ti) (some v) now).2 = 1 ↔
          (s.scrobbled = false ∧ 0 < v.currentTime ∧ s.startTime.isSome
           ∧ scrobbleThreshold (v.duration.getD 0) ≤ v.currentTime)))
    ∧ (∀ (s : ScrobState) (ti : TrackInfo) (v : Video) (now : Nat) (ct : CurrentTrack) (st : Nat),
        s.currentTrack = some ct → ct.id = trackKey ti → s.startTime = some st → st ≠ 0 →
        s.scrobbled = false → 0 < v.currentTime →
        scrobbleThreshold (v.duration.getD 0) ≤ v.currentTime →
        ((checkTrack s (some ti) (some v) now).2.filter isScrob
            = [.scrobble ct.artist ct.track ct.album (st / 1000)]
         ∧ (checkTrack s (some ti) (some v) now).1.scrobbled = true))
    ∧ scrobbleThreshold 300 = 240 ∧ scrobbleThreshold 1000 = 500
    ∧ (∀ (ts : List Trigger) (k : String),
        (∀ t ∈ ts, ∀ ti, t.info = some ti → trackKey ti = k) →
        scrobCount (runSession initState ts).2 ≤ 1)
    ∧ (∀ (s : ScrobState) (ti : TrackInfo) (v : Video) (now : Nat) (ct : CurrentTrack),
        s.currentTrack = some ct → ct.id = trackKey ti → s.startTime ≠ some 0 →
        (scrobCount (lbCheckTrack s (some ti) (some v) now).2 = 1 ↔
          (s.scrobbled = false ∧ 0 < v.currentTime ∧ s.startTime.isSome
           ∧ scrobbleThreshold (v.duration.getD 0) ≤ v.currentTime)))
    ∧ (∀ (ts : List Trigger) (k : String),
        (∀ t ∈ ts, ∀ ti, t.info = some ti → trackKey ti = k) →
        scrobCount (lbRunSession initState ts).2 ≤ 1) := by
  refine ⟨?_, ?_, by norm_num [scrobbleThreshold], by norm_num [scrobbleThreshold], ?_, ?_, ?_⟩
  · intro s ti v now ct hct hkid hnz
    have hid : s.currentTrack.map CurrentTrack.id = some (trackKey ti) := by
      rw [hct]
      simp [hkid]
    have hd := checkTrack_same_decomp s ti v now hid
    rw [hd.1, scrobCount_append,
      (periodicPhase_fields (scrobblePhase s v).1 v now).2.2.2, Nat.add_zero]
    exact fire_iff s v hnz ct hct
  · intro s ti v now ct st hct hkid hst hstnz hscr hpos hthr
    have hid : s.currentTrack.map CurrentTrack.id = some (trackKey ti) := by
      rw [hct]
      simp [hkid]
    have htr : timeTruthy s.startTime = true := by
      rw [hst]; simp [timeTruthy, hstnz]
    have hf : fireCond s v := ⟨hscr, hpos, htr, hthr⟩
    have hd := checkTrack_same_decomp s ti v now hid
    have hfe := scrobblePhase_fire_events s v ct st hct hst hf
    constructor
    · rw [hd.1, List.filter_append, hfe.1,
        scrobFilter_nil _ ((periodicPhase_fields (scrobblePhase s v).1 v now).2.2.2)]
      simp
    · rw [hd.2, (periodicPhase_fields (scrobblePhase s v).1 v now).2.1]
      exact hfe.2
  · intro ts k hk
    have hb := runEvents_scrob_bound (fun s t => checkTrack s t.info t.video t.now) k
      (fun s t hkt => checkTrack_bound_hg k s t hkt) ts initState hk
    refine le_trans hb ?_
    rw [if_neg]
    · intro hcc
      exact absurd hcc.1 (by simp [initState])
  · intro s ti v now ct hct hkid hnz
    have hid : s.currentTrack.map CurrentTrack.id = some (trackKey ti) := by
      rw [hct]
      simp [hkid]
    have hd := lbCheckTrack_same_decomp s ti v now hid
    rw [hd.1]
    exact fire_iff s v hnz ct hct
  · intro ts k hk
    have hb := runEvents_scrob_bound (fun s t => lbCheckTrack s t.info t.video t.now) k
      (fun s t hkt => lbCheckTrack_bound_hg k s t hkt) ts initState hk
    refine le_trans hb ?_
    rw [if_neg]
    · intro hcc
      exact absurd hcc.1 (by simp [initState])

/-- Witness: while tracking "S" by "A" (started at 4 s, not yet
scrobbled), a trigger with the video at 250 s of 300 s fires exactly one
scrobble. -/
theorem scrobble_once_per_identity_witness :
    scrobCount (checkTrack sC6 (some tiC6) (some v61) 60000).2 = 1 :=
  (scrobble_once_per_identity.1 sC6 tiC6 v61 60000
      { id := "S|A", track := "S", artist := "A", album := none } rfl (by decide)
      (by decide)).mpr
    ⟨rfl, by norm_num [v61], rfl, by norm_num [scrobbleThreshold, v61]⟩

/-! ## C3: behaviour on a track-identity change -/

/-- C3 counterexample: the state last pushed now-playing at 10 s; a new
track identity appears at 20 s.  The identity did change, but the
"immediate" now-playing call goes through `updateNowPlaying`, whose
30-second throttle suppresses it: the step emits *no* push at all,
refuting "fires a now-playing push unconditionally, bypassing the
throttle". -/
theorem trackChange_push_suppressed :
    sC3.currentTrack.map CurrentTrack.id ≠ some (trackKey tiC3)
    ∧ 20000 - sC3.lastUpdateTime < UPDATE_INTERVAL
    ∧ (checkTrack sC3 (some tiC3) (some vC3) 20000).1.startTime = some 20000
    ∧ (checkTrack sC3 (some tiC3) (some vC3) 20000).2 = [] := by
  decide

/-- C3 amended: a track-identity change replaces `currentTrack`, sets
`startTime := now`, resets the scrobbled flag (it ends up `true` in the
same step only if the scrobble itself fires), and calls
`updateNowPlaying` immediately — but that call is still subject to the
30-second throttle: the step pushes now-playing exactly once when at
least `UPDATE_INTERVAL` has elapsed since the last accepted push, and
not at all otherwise. -/
theorem trackChange_resets_and_throttled (s : ScrobState) (ti : TrackInfo) (v : Video)
    (now : Nat) (h : s.currentTrack.map CurrentTrack.id ≠ some (trackKey ti)) :
    (checkTrack s (some ti) (some v) now).1.startTime = some now
    ∧ (checkTrack s (some ti) (some v) now).1.currentTrack
        = some ⟨trackKey ti, ti.track, ti.artist, ti.album⟩
    ∧ ((checkTrack s (some ti) (some v) now).1.scrobbled = true
        ↔ scrobCount (checkTrack s (some ti) (some v) now).2 = 1)
    ∧ npCount (checkTrack s (some ti) (some v) now).2
        = (if s.lastUpdateTime + UPDATE_INTERVAL ≤ now then 1 else 0) := by
  obtain ⟨hct, hscrN, hstN, hevN, hluN⟩ := newTrackPhase_new s ti now h
  have hev : (checkTrack s (some ti) (some v) now).2
      = (newTrackPhase s ti now).2 ++ (scrobblePhase (newTrackPhase s ti now).1 v).2
        ++ (periodicPhase (scrobblePhase (newTrackPhase s ti now).1 v).1 v now).2 := rfl
  have hfin : (checkTrack s (some ti) (some v) now).1
      = (periodicPhase (scrobblePhase (newTrackPhase s ti now).1 v).1 v now).1 := rfl
  obtain ⟨hsp_le, hsp_ct, hsp_st, hsp_lu, _, _, hsp_np⟩ :=
    scrobblePhase_char (newTrackPhase s ti now).1 v
  obtain ⟨hpp_ct, hpp_scr, hpp_st, hpp_cnt⟩ :=
    periodicPhase_fields (scrobblePhase (newTrackPhase s ti now).1 v).1 v now
  have hpp_nil : (periodicPhase (scrobblePhase (newTrackPhase s ti now).1 v).1 v now).2 = [] := by
    apply periodicPhase_suppressed
    rw [hsp_lu, hluN]
    by_cases hc : s.lastUpdateTime + UPDATE_INTERVAL ≤ now
    · rw [if_pos hc]
      unfold UPDATE_INTERVAL
      omega
    · rw [if_neg hc]
      exact hc
  refine ⟨?_, ?_, ?_, ?_⟩
  · rw [hfin, hpp_st, hsp_st, hstN]
  · rw [hfin, hpp_ct, hsp_ct, hct]
  · rw [hfin, hpp_scr, hev, scrobCount_append, scrobCount_append, hpp_cnt,
      (newTrackPhase_track s ti now).2]
    simpa using scrobblePhase_scr_iff (newTrackPhase s ti now).1 v hscrN
  · rw [hev, npCount_append, npCount_append, hsp_np, hpp_nil, hevN]
    by_cases hc : s.lastUpdateTime + UPDATE_INTERVAL ≤ now
    · rw [if_pos hc, if_pos hc]
      simp [npCount, isScrob]
    · rw [if_neg hc, if_neg hc]
      simp [npCount]

/-- Witness: a track change 60 s after the last accepted push does push
now-playing, and records the new start timestamp. -/
theorem trackChange_resets_and_throttled_witness :
    (checkTrack sC3 (some tiC3) (some vC3) 70000).1.startTime = some 70000
    ∧ npCount (checkTrack sC3 (some tiC3) (some vC3) 70000).2 = 1 := by
  have h := trackChange_resets_and_throttled sC3 tiC3 vC3 70000 (by decide)
  refine ⟨h.1, ?_⟩
  rw [h.2.2.2]
  decide

/-! ## C6: behaviour after a failed submission -/

/-- C6 counterexample: tracking "S" by "A", the scrobble fires at the
first trigger past the threshold and `scrobbled` is set immediately,
without awaiting the submission result; even if that submission failed,
the next trigger for the same identity (position 260 s) attempts no
scrobble — refuting "a scrobble whose submission failed is re-attempted
for the same TrackIdentity on a later trigger". -/
theorem failed_scrobble_not_retried :
    scrobCount (checkTrack sC6 (some tiC6) (some v61) 50000).2 = 1
    ∧ scrobCount (checkTrack (checkTrack sC6 (some tiC6) (some v61) 50000).1
        (some tiC6) (some v62) 55000).2 = 0 := by
  have hid : sC6.currentTrack.map CurrentTrack.id = some (trackKey tiC6) := by decide
  have h1 : scrobCount (checkTrack sC6 (some tiC6) (some v61) 50000).2 = 1 := by
    have hd := checkTrack_same_decomp sC6 tiC6 v61 50000 hid
    rw [hd.1, scrobCount_append,
      (periodicPhase_fields (scrobblePhase sC6 v61).1 v61 50000).2.2.2, Nat.add_zero]
    exact (fire_iff sC6 v61 (by decide) _ rfl).mpr
      ⟨rfl, by norm_num [v61], rfl, by norm_num [scrobbleThreshold, v61]⟩
  refine ⟨h1, ?_⟩
  have hscr := (checkTrack_char sC6 tiC6 v61 50000).2.2.1 h1
  have hid2 := (checkTrack_char sC6 tiC6 v61 50000).2.1
  exact ((checkTrack_char (checkTrack sC6 (some tiC6) (some v61) 50000).1 tiC6 v62 55000).2.2.2
    hscr hid2).1

/-- C6 amended: a failed submission is skipped for that cycle; there is
no retry queue and no feedback from the submission outcome into the
session state.  A now-playing push is attempted again by a later
trigger once the 30-second throttle allows (whether or not the earlier
attempt succeeded, since `lastUpdateTime` is set before the request),
but a scrobble is never re-attempted for the same TrackIdentity within
the session: the `scrobbled` flag is set when the submission is fired,
regardless of its outcome. -/
theorem failure_skip_no_retry_queue :
    (∀ (s : ScrobState) (a b : String) (c : Option String) (t t2 : Nat),
        s.lastUpdateTime + UPDATE_INTERVAL ≤ t →
        (updateNowPlaying s a b c t).2 = [.nowPlaying a b c]
        ∧ (t + UPDATE_INTERVAL ≤ t2 →
            (updateNowPlaying (updateNowPlaying s a b c t).1 a b c t2).2
              = [.nowPlaying a b c]))
    ∧ (∀ (s : ScrobState) (ti : TrackInfo) (v v2 : Video) (now n2 : Nat),
        scrobCount (checkTrack s (some ti) (some v) now).2 = 1 →
        scrobCount (checkTrack (checkTrack s (some ti) (some v) now).1
          (some ti) (some v2) n2).2 = 0) := by
  constructor
  · intro s a b c t t2 ht
    obtain ⟨he, hl⟩ := updateNowPlaying_emits s a b c t
    refine ⟨by rw [he, if_pos ht], ?_⟩
    intro ht2
    obtain ⟨he2, _⟩ := updateNowPlaying_emits (updateNowPlaying s a b c t).1 a b c t2
    rw [he2, if_pos]
    rw [hl, if_pos ht]
    exact ht2
  · intro s ti v v2 now n2 h1
    have hscr := (checkTrack_char s ti v now).2.2.1 h1
    have hid2 := (checkTrack_char s ti v now).2.1
    exact ((checkTrack_char (checkTrack s (some ti) (some v) now).1 ti v2 n2).2.2.2
      hscr hid2).1

/-- Witness: a push accepted at 30 s goes out, and a trigger at 60 s goes
out again. -/
theorem failure_skip_no_retry_queue_witness :
    (updateNowPlaying initState "a" "t" none 30000).2 = [.nowPlaying "a" "t" none]
    ∧ (updateNowPlaying (updateNowPlaying initState "a" "t" none 30000).1
        "a" "t" none 60000).2 = [.nowPlaying "a" "t" none] := by
  have h := failure_skip_no_retry_queue.1 initState "a" "t" none 30000 60000 (by decide)
  exact ⟨h.1, h.2 (by decide)⟩

end BYM
